import Mathlib

/-!
Verification of the fast-django CRUD service.

The embedding follows src/main.py (pydantic models, the `*_db` domain
operations and the FastAPI endpoint handlers) and src/config/settings.py
(the `DATABASES` configuration). The Django model `db_app.models.User` is
not part of the available sources, so the persistence-store side (row
layout, auto-increment primary key, `created_at` set at creation) is
modelled from the spec, as noted on the relevant definitions.
-/

/-- A persisted `User` row: `id`, `name`, `email`, `created_at`.
Timestamps are abstract (`Nat`). -/
structure UserRecord where
  id : Nat
  name : String
  email : String
  created_at : Nat
deriving DecidableEq, Repr

/-- Modelled from the spec: the persistence store backing `db_app.models.User`
(the Django model file is not under the available sources). It holds the rows
in insertion order together with the auto-increment counter for the primary
key: "id: integer, unique, assigned by the store on creation (auto-increment)". -/
structure Store where
  rows : List UserRecord
  nextId : Nat
deriving DecidableEq, Repr

/-- The empty store, as created by a fresh migration: no rows, ids start at 1. -/
def Store.empty : Store := ⟨[], 1⟩

/-- Store well-formedness: every persisted id is below the auto-increment
counter (so freshly assigned ids are new), and ids are pairwise distinct
(the primary-key uniqueness the relational store guarantees). -/
def Store.WF (s : Store) : Prop :=
  (∀ u ∈ s.rows, u.id < s.nextId) ∧ s.rows.Pairwise (fun a b => a.id ≠ b.id)

instance (s : Store) : Decidable s.WF := by
  unfold Store.WF; infer_instance

/-- Embedding of `UserCreate` (src/main.py): the validated request body for create and
update, inheriting `name` and `email` from `UserBase`. -/
structure UserCreate where
  name : String
  email : String
deriving DecidableEq, Repr

/-- A raw JSON request body as received on the wire: `name` and `email` may be
missing, and a client may also send extra `id` / `created_at` fields, which do
not appear in `UserCreate` at all. -/
structure RawBody where
  name : Option String
  email : Option String
  extraId : Option Nat
  extraCreatedAt : Option Nat
deriving DecidableEq, Repr

/-- The pydantic field constraint of `UserBase` (src/main.py lines 20-22):
`Field(..., min_length=1, max_length=100)`. -/
def fieldOk (v : String) : Bool := 1 ≤ v.length && v.length ≤ 100

/-- Pydantic validation of a raw body against `UserCreate`: `name` and `email`
are required and must satisfy the length bounds; any other field of the body
is ignored. Runs before the endpoint handler; failure is a 422 response. -/
def validateBody (b : RawBody) : Option UserCreate :=
  match b.name, b.email with
  | some n, some e => if fieldOk n && fieldOk e then some ⟨n, e⟩ else none
  | _, _ => none

/-- Embedding of `get_all_users_db` (src/main.py): `list(UserModel.objects.all())`,
i.e. all rows in insertion order. -/
def get_all_users_db (s : Store) : List UserRecord := s.rows

/-- Embedding of `create_user_db` (src/main.py): `UserModel.objects.create(**user_data.model_dump())`.
The store side is modelled from the spec: the store assigns `id` from the
auto-increment counter and sets `created_at` once, at insertion time (`now`).
Returns the created row and the updated store. -/
def create_user_db (s : Store) (d : UserCreate) (now : Nat) : UserRecord × Store :=
  let u : UserRecord := ⟨s.nextId, d.name, d.email, now⟩
  (u, ⟨s.rows ++ [u], s.nextId + 1⟩)

/-- Embedding of `get_user_db` (src/main.py): `UserModel.objects.get(pk=user_id)`, returning
`none` on `DoesNotExist`. -/
def get_user_db (s : Store) (uid : Nat) : Option UserRecord :=
  s.rows.find? (fun u => u.id == uid)

/-- Embedding of `update_user_db` (src/main.py): read the row by id; if absent return
`none`; otherwise overwrite `name` and `email` with the body values and save. -/
def update_user_db (s : Store) (uid : Nat) (d : UserCreate) :
    Option UserRecord × Store :=
  match get_user_db s uid with
  | none => (none, s)
  | some u =>
    let u' : UserRecord := { u with name := d.name, email := d.email }
    (some u', ⟨s.rows.map (fun v => if v.id == uid then u' else v), s.nextId⟩)

/-- Embedding of `delete_user_db` (src/main.py): read the row by id; if absent return
`false`; otherwise delete it and return `true`. -/
def delete_user_db (s : Store) (uid : Nat) : Bool × Store :=
  match get_user_db s uid with
  | none => (false, s)
  | some _ => (true, ⟨s.rows.filter (fun u => u.id != uid), s.nextId⟩)

/-- Response payloads of the HTTP layer. -/
inductive Payload where
  | user (u : UserRecord)
  | users (l : List UserRecord)
  | validationError
  | notFound
  | emptyBody
deriving DecidableEq, Repr

/-- An HTTP response: status code and payload. -/
structure Response where
  status : Nat
  payload : Payload
deriving DecidableEq, Repr

/-- Endpoint `POST /users/` (`create_user` in src/main.py). Pydantic validates the body
before the handler runs; an invalid body is answered 422 without touching the
store, a valid one is persisted via `create_user_db` and answered 201. -/
def create_user (s : Store) (b : RawBody) (now : Nat) : Response × Store :=
  match validateBody b with
  | none => (⟨422, .validationError⟩, s)
  | some d =>
    let r := create_user_db s d now
    (⟨201, .user r.1⟩, r.2)

/-- Endpoint `GET /users/` (`read_users` in src/main.py): all users, status 200. -/
def read_users (s : Store) : Response × Store :=
  (⟨200, .users (get_all_users_db s)⟩, s)

/-- Endpoint for one user, `GET /users/` with a path id (`read_user` in src/main.py): the user with that id
and status 200, or 404 if absent. -/
def read_user (s : Store) (uid : Nat) : Response × Store :=
  match get_user_db s uid with
  | none => (⟨404, .notFound⟩, s)
  | some u => (⟨200, .user u⟩, s)

/-- Endpoint `PUT /users/` with a path id (`update_user` in src/main.py): validated body, then
`update_user_db`; 200 with the updated record, or 404 if absent. -/
def update_user (s : Store) (uid : Nat) (b : RawBody) : Response × Store :=
  match validateBody b with
  | none => (⟨422, .validationError⟩, s)
  | some d =>
    match update_user_db s uid d with
    | (none, s') => (⟨404, .notFound⟩, s')
    | (some u, s') => (⟨200, .user u⟩, s')

/-- Endpoint `DELETE /users/` with a path id (`delete_user` in src/main.py): 204 with empty
body on success, 404 if absent. -/
def delete_user (s : Store) (uid : Nat) : Response × Store :=
  match delete_user_db s uid with
  | (false, s') => (⟨404, .notFound⟩, s')
  | (true, s') => (⟨204, .emptyBody⟩, s')

/-- An environment: a partial map from variable names to values, read with
`os.getenv`. -/
def Env : Type := String → Option String

/-- Embedding of `os.getenv(key, default)` as used in src/config/settings.py. -/
def getenvD (env : Env) (key d : String) : String := (env key).getD d

/-- The `default` entry of the `DATABASES` dict in src/config/settings.py. -/
structure DbConfig where
  engine : String
  name : String
  user : Option String
  password : Option String
  host : Option String
  port : Option String
deriving DecidableEq, Repr

/-- Path of the default SQLite file under the project root, `BASE_DIR` joined
with the literal db.sqlite3. -/
def defaultDbName (baseDir : String) : String := baseDir ++ "/db.sqlite3"

/-- The default entry of the `DATABASES` dict built in src/config/settings.py
lines 26-36 from the environment. -/
def DATABASES_default (env : Env) (baseDir : String) : DbConfig :=
  { engine := getenvD env "DB_ENGINE" "django.db.backends.sqlite3"
    name := getenvD env "DB_NAME" (defaultDbName baseDir)
    user := env "DB_USER"
    password := env "DB_PASSWORD"
    host := env "DB_HOST"
    port := env "DB_PORT" }

example : (create_user Store.empty ⟨some "Ann", some "a@x.com", none, none⟩ 5).1.status = 201 := by decide
example : (create_user Store.empty ⟨some "", some "a@x.com", none, none⟩ 5).1.status = 422 := by decide
example : (read_user Store.empty 1).1.status = 404 := by decide

/-- Helper: in a list with pairwise-distinct ids, the lookup by id finds the
member that carries that id. -/
theorem find_by_id_of_mem {l : List UserRecord} {u : UserRecord} {uid : Nat}
    (hp : l.Pairwise (fun a b => a.id ≠ b.id)) (hm : u ∈ l) (hid : u.id = uid) :
    l.find? (fun v => v.id == uid) = some u := by
  subst hid
  induction l with
  | nil => cases hm
  | cons a t ih =>
    rcases List.mem_cons.1 hm with rfl | hm2
    · exact List.find?_cons_of_pos _ (by simp)
    · have hne : a.id ≠ u.id := (List.pairwise_cons.1 hp).1 u hm2
      refine Eq.trans (List.find?_cons_of_neg t ?_) (ih (List.pairwise_cons.1 hp).2 hm2)
      simp only [beq_iff_eq]
      exact hne

/-- Helper: the lookup by id fails exactly on stores holding no row with that
id. -/
theorem find_by_id_eq_none {l : List UserRecord} {uid : Nat}
    (h : ∀ u ∈ l, u.id ≠ uid) : l.find? (fun v => v.id == uid) = none :=
  List.find?_eq_none.2 (fun u hu => by simp; exact h u hu)

/-- C1: a POST body whose `name` and `email` both have length 1 to 100 is
answered 201 with the created record (store-assigned `id` and `created_at`)
and the record appended to the store; a body with a missing, empty, or
over-100-character field is answered 422 with the store untouched, so its
record count is unchanged. -/
theorem C1_create_validation (s : Store) (b : RawBody) (now : Nat) :
    (∀ n e, b.name = some n → b.email = some e →
      1 ≤ n.length → n.length ≤ 100 → 1 ≤ e.length → e.length ≤ 100 →
      create_user s b now =
        (⟨201, .user ⟨s.nextId, n, e, now⟩⟩,
         ⟨s.rows ++ [⟨s.nextId, n, e, now⟩], s.nextId + 1⟩)) ∧
    ((b.name = none ∨ b.email = none ∨
      (∃ v, b.name = some v ∧ (v.length = 0 ∨ 100 < v.length)) ∨
      (∃ v, b.email = some v ∧ (v.length = 0 ∨ 100 < v.length))) →
      (create_user s b now).1.status = 422 ∧
      (create_user s b now).2 = s ∧
      (create_user s b now).2.rows.length = s.rows.length) := by
  constructor
  · intro n e hn he h1 h2 h3 h4
    have hfn : fieldOk n = true := by simp [fieldOk]; omega
    have hfe : fieldOk e = true := by simp [fieldOk]; omega
    simp [create_user, validateBody, hn, he, hfn, hfe, create_user_db]
  · intro h
    have hv : validateBody b = none := by
      cases hbn : b.name with
      | none => simp [validateBody, hbn]
      | some n =>
        cases hbe : b.email with
        | none => simp [validateBody, hbn, hbe]
        | some e =>
          rcases h with h | h | ⟨v, hv, hl⟩ | ⟨v, hv, hl⟩
          · rw [hbn] at h; cases h
          · rw [hbe] at h; cases h
          · rw [hbn] at hv; injection hv with hv; subst hv
            have hf : fieldOk n = false := by simp [fieldOk]; omega
            simp [validateBody, hbn, hbe, hf]
          · rw [hbe] at hv; injection hv with hv; subst hv
            have hf : fieldOk e = false := by simp [fieldOk]; omega
            simp [validateBody, hbn, hbe, hf]
    simp [create_user, hv]

/-- Witness for C1 at concrete inputs: a valid body is created with id 1, and
a body with an empty name is rejected leaving the empty store unchanged. -/
theorem C1_create_validation_witness :
    create_user Store.empty ⟨some "Ann", some "a@x.com", none, none⟩ 5 =
      (⟨201, .user ⟨1, "Ann", "a@x.com", 5⟩⟩, ⟨[⟨1, "Ann", "a@x.com", 5⟩], 2⟩) ∧
    (create_user Store.empty ⟨some "", some "a@x.com", none, none⟩ 5).1.status = 422 ∧
    (create_user Store.empty ⟨some "", some "a@x.com", none, none⟩ 5).2 = Store.empty :=
  ⟨by
    have h := (C1_create_validation Store.empty ⟨some "Ann", some "a@x.com", none, none⟩ 5).1
      "Ann" "a@x.com" rfl rfl (by decide) (by decide) (by decide) (by decide)
    simpa [Store.empty] using h,
   ((C1_create_validation Store.empty ⟨some "", some "a@x.com", none, none⟩ 5).2
      (Or.inr (Or.inr (Or.inl ⟨"", rfl, Or.inl (by decide)⟩)))).1,
   ((C1_create_validation Store.empty ⟨some "", some "a@x.com", none, none⟩ 5).2
      (Or.inr (Or.inr (Or.inl ⟨"", rfl, Or.inl (by decide)⟩)))).2.1⟩

/-- C2: on a well-formed store, GET of an id held by a row answers 200 with
exactly that row (and `get_user_db` returns it), while GET of an id held by no
row answers 404 (and `get_user_db` returns none). -/
theorem C2_read_user (s : Store) (uid : Nat) (hs : s.WF) :
    (∀ u ∈ s.rows, u.id = uid →
      get_user_db s uid = some u ∧ read_user s uid = (⟨200, .user u⟩, s)) ∧
    ((∀ u ∈ s.rows, u.id ≠ uid) →
      get_user_db s uid = none ∧ read_user s uid = (⟨404, .notFound⟩, s)) := by
  constructor
  · intro u hu hid
    have hg : get_user_db s uid = some u := find_by_id_of_mem hs.2 hu hid
    exact ⟨hg, by simp [read_user, hg]⟩
  · intro h
    have hg : get_user_db s uid = none := find_by_id_eq_none h
    exact ⟨hg, by simp [read_user, hg]⟩

/-- Witness for C2 at a concrete store with one row of id 1: GET 1 answers
200 with the row and GET 2 answers 404. -/
theorem C2_read_user_witness :
    read_user ⟨[⟨1, "Ann", "a@x.com", 5⟩], 2⟩ 1 =
      (⟨200, .user ⟨1, "Ann", "a@x.com", 5⟩⟩, ⟨[⟨1, "Ann", "a@x.com", 5⟩], 2⟩) ∧
    read_user ⟨[⟨1, "Ann", "a@x.com", 5⟩], 2⟩ 2 =
      (⟨404, .notFound⟩, ⟨[⟨1, "Ann", "a@x.com", 5⟩], 2⟩) :=
  ⟨((C2_read_user ⟨[⟨1, "Ann", "a@x.com", 5⟩], 2⟩ 1 (by decide)).1
      ⟨1, "Ann", "a@x.com", 5⟩ (by simp) rfl).2,
   ((C2_read_user ⟨[⟨1, "Ann", "a@x.com", 5⟩], 2⟩ 2 (by decide)).2
      (by decide)).2⟩

/-- C3: on a well-formed store, retrieving the id assigned at creation right
after the create operation yields exactly the record the create operation
returned. -/
theorem C3_create_then_get (s : Store) (d : UserCreate) (now : Nat) (hs : s.WF) :
    get_user_db (create_user_db s d now).2 (create_user_db s d now).1.id =
      some (create_user_db s d now).1 := by
  have h1 : s.rows.find? (fun v => v.id == s.nextId) = none :=
    find_by_id_eq_none (fun u hu => Nat.ne_of_lt (hs.1 u hu))
  simp [get_user_db, create_user_db, List.find?_append, h1]

/-- Witness for C3: creating in the one-row store of id 1 assigns id 2, and
getting id 2 returns the created record. -/
theorem C3_create_then_get_witness :
    get_user_db (create_user_db ⟨[⟨1, "Ann", "a@x.com", 5⟩], 2⟩ ⟨"Bob", "b@x.com"⟩ 9).2
        (create_user_db ⟨[⟨1, "Ann", "a@x.com", 5⟩], 2⟩ ⟨"Bob", "b@x.com"⟩ 9).1.id =
      some (create_user_db ⟨[⟨1, "Ann", "a@x.com", 5⟩], 2⟩ ⟨"Bob", "b@x.com"⟩ 9).1 :=
  C3_create_then_get ⟨[⟨1, "Ann", "a@x.com", 5⟩], 2⟩ ⟨"Bob", "b@x.com"⟩ 9 (by decide)

/-- C4: listing always answers 200 with exactly the stored rows in insertion
order; in particular, after creating three users in an empty store, listing
returns exactly those three records in creation order. -/
theorem C4_list_after_creates (n1 n2 n3 : UserCreate) (t1 t2 t3 : Nat)
    (u1 u2 u3 : UserRecord) (s1 s2 s3 : Store)
    (h1 : create_user_db Store.empty n1 t1 = (u1, s1))
    (h2 : create_user_db s1 n2 t2 = (u2, s2))
    (h3 : create_user_db s2 n3 t3 = (u3, s3)) :
    (∀ s : Store, read_users s = (⟨200, .users (get_all_users_db s)⟩, s) ∧
      get_all_users_db s = s.rows) ∧
    read_users s3 = (⟨200, .users [u1, u2, u3]⟩, s3) := by
  refine ⟨fun s => ⟨rfl, rfl⟩, ?_⟩
  have hu1 : u1 = (create_user_db Store.empty n1 t1).1 := by rw [h1]
  have hs1 : s1 = (create_user_db Store.empty n1 t1).2 := by rw [h1]
  subst hu1 hs1
  have hu2 : u2 = (create_user_db (create_user_db Store.empty n1 t1).2 n2 t2).1 := by rw [h2]
  have hs2 : s2 = (create_user_db (create_user_db Store.empty n1 t1).2 n2 t2).2 := by rw [h2]
  subst hu2 hs2
  have hu3 : u3 =
      (create_user_db (create_user_db (create_user_db Store.empty n1 t1).2 n2 t2).2 n3 t3).1 := by
    rw [h3]
  have hs3 : s3 =
      (create_user_db (create_user_db (create_user_db Store.empty n1 t1).2 n2 t2).2 n3 t3).2 := by
    rw [h3]
  subst hu3 hs3
  simp [read_users, get_all_users_db, create_user_db, Store.empty]

/-- Witness for C4: the concrete three-create run from the empty store lists
the three records with ids 1, 2, 3 in order. -/
theorem C4_list_after_creates_witness :
    read_users ⟨[⟨1, "a", "a@x", 4⟩, ⟨2, "b", "b@x", 5⟩, ⟨3, "c", "c@x", 6⟩], 4⟩ =
      (⟨200, .users [⟨1, "a", "a@x", 4⟩, ⟨2, "b", "b@x", 5⟩, ⟨3, "c", "c@x", 6⟩]⟩,
       ⟨[⟨1, "a", "a@x", 4⟩, ⟨2, "b", "b@x", 5⟩, ⟨3, "c", "c@x", 6⟩], 4⟩) :=
  (C4_list_after_creates ⟨"a", "a@x"⟩ ⟨"b", "b@x"⟩ ⟨"c", "c@x"⟩ 4 5 6
    ⟨1, "a", "a@x", 4⟩ ⟨2, "b", "b@x", 5⟩ ⟨3, "c", "c@x", 6⟩
    ⟨[⟨1, "a", "a@x", 4⟩], 2⟩
    ⟨[⟨1, "a", "a@x", 4⟩, ⟨2, "b", "b@x", 5⟩], 3⟩
    ⟨[⟨1, "a", "a@x", 4⟩, ⟨2, "b", "b@x", 5⟩, ⟨3, "c", "c@x", 6⟩], 4⟩
    rfl rfl rfl).2

/-- C5: on a well-formed store, PUT with a valid body on an id held by row `u`
overwrites both `name` and `email` of `u` with the body values, persists the
overwritten row, and answers 200 with it; the update is a full overwrite of
both fields, never a partial one. -/
theorem C5_update_overwrites (s : Store) (uid : Nat) (b : RawBody) (d : UserCreate)
    (u : UserRecord) (hs : s.WF) (hu : u ∈ s.rows) (hid : u.id = uid)
    (hb : validateBody b = some d) :
    update_user s uid b =
      (⟨200, .user { u with name := d.name, email := d.email }⟩,
       ⟨s.rows.map (fun v => if v.id == uid then { u with name := d.name, email := d.email } else v),
        s.nextId⟩) ∧
    ({ u with name := d.name, email := d.email } : UserRecord) ∈ (update_user s uid b).2.rows := by
  have hg : get_user_db s uid = some u := find_by_id_of_mem hs.2 hu hid
  have he : update_user s uid b =
      (⟨200, .user { u with name := d.name, email := d.email }⟩,
       ⟨s.rows.map (fun v => if v.id == uid then { u with name := d.name, email := d.email } else v),
        s.nextId⟩) := by
    simp [update_user, update_user_db, hb, hg]
  refine ⟨he, ?_⟩
  rw [he]
  exact List.mem_map.2 ⟨u, hu, by simp [hid]⟩

/-- Witness for C5: updating id 1 in a one-row store overwrites both fields
and answers 200 with the overwritten row. -/
theorem C5_update_overwrites_witness :
    update_user ⟨[⟨1, "Ann", "a@x.com", 5⟩], 2⟩ 1 ⟨some "Bea", some "b@x.com", none, none⟩ =
      (⟨200, .user ⟨1, "Bea", "b@x.com", 5⟩⟩, ⟨[⟨1, "Bea", "b@x.com", 5⟩], 2⟩) := by
  have h := (C5_update_overwrites ⟨[⟨1, "Ann", "a@x.com", 5⟩], 2⟩ 1
    ⟨some "Bea", some "b@x.com", none, none⟩ ⟨"Bea", "b@x.com"⟩ ⟨1, "Ann", "a@x.com", 5⟩
    (by decide) (by simp) rfl (by decide)).1
  simpa using h

/-- C6: PUT with a valid body on an id held by no row answers 404 and leaves
the store exactly as it was, so a subsequent listing shows the prior set. -/
theorem C6_update_missing (s : Store) (uid : Nat) (b : RawBody) (d : UserCreate)
    (hb : validateBody b = some d) (h : ∀ u ∈ s.rows, u.id ≠ uid) :
    update_user s uid b = (⟨404, .notFound⟩, s) ∧
    read_users (update_user s uid b).2 = read_users s := by
  have hg : get_user_db s uid = none := find_by_id_eq_none h
  have he : update_user s uid b = (⟨404, .notFound⟩, s) := by
    simp [update_user, update_user_db, hb, hg]
  exact ⟨he, by rw [he]⟩

/-- Witness for C6: updating id 7 in a one-row store of id 1 answers 404 and
the store is unchanged. -/
theorem C6_update_missing_witness :
    update_user ⟨[⟨1, "Ann", "a@x.com", 5⟩], 2⟩ 7 ⟨some "Bea", some "b@x.com", none, none⟩ =
      (⟨404, .notFound⟩, ⟨[⟨1, "Ann", "a@x.com", 5⟩], 2⟩) :=
  (C6_update_missing ⟨[⟨1, "Ann", "a@x.com", 5⟩], 2⟩ 7
    ⟨some "Bea", some "b@x.com", none, none⟩ ⟨"Bea", "b@x.com"⟩ rfl (by decide)).1

/-- C7: on a well-formed store, deleting an id held by no row returns false
and leaves the store unchanged; deleting an id held by row `u` returns true,
removes exactly the rows carrying that id (every other row survives), and a
subsequent get of that id returns none, so the endpoint answers 404. -/
theorem C7_delete (s : Store) (uid : Nat) (hs : s.WF) :
    ((∀ u ∈ s.rows, u.id ≠ uid) → delete_user_db s uid = (false, s)) ∧
    (∀ u ∈ s.rows, u.id = uid →
      delete_user_db s uid = (true, ⟨s.rows.filter (fun v => v.id != uid), s.nextId⟩) ∧
      get_user_db (delete_user_db s uid).2 uid = none ∧
      u ∉ (delete_user_db s uid).2.rows ∧
      read_user (delete_user_db s uid).2 uid =
        ((⟨404, .notFound⟩ : Response), (delete_user_db s uid).2) ∧
      (∀ v ∈ s.rows, v ≠ u → v ∈ (delete_user_db s uid).2.rows)) := by
  constructor
  · intro h
    simp [delete_user_db, find_by_id_eq_none h, get_user_db]
  · intro u hu hid
    have hg : get_user_db s uid = some u := find_by_id_of_mem hs.2 hu hid
    have he : delete_user_db s uid =
        (true, ⟨s.rows.filter (fun v => v.id != uid), s.nextId⟩) := by
      simp [delete_user_db, hg]
    have hnone : get_user_db (delete_user_db s uid).2 uid = none := by
      rw [he]
      refine find_by_id_eq_none (fun v hv => ?_)
      have := (List.mem_filter.1 hv).2
      simpa using this
    refine ⟨he, hnone, ?_, ?_, ?_⟩
    · rw [he]
      intro hin
      have := (List.mem_filter.1 hin).2
      simp [hid] at this
    · simp [read_user, hnone]
    · intro v hv hvu
      rw [he]
      refine List.mem_filter.2 ⟨hv, ?_⟩
      have hvid : v.id ≠ u.id :=
        (hs.2.forall (fun _ _ h => Ne.symm h)) hv hu hvu
      rw [← hid]
      simpa using hvid

/-- Witness for C7: in the one-row store of id 1, deleting id 1 returns true
and empties the store so the subsequent get of id 1 returns none, while
deleting id 7 returns false with the store unchanged. -/
theorem C7_delete_witness :
    delete_user_db ⟨[⟨1, "Ann", "a@x.com", 5⟩], 2⟩ 1 = (true, ⟨[], 2⟩) ∧
    get_user_db (delete_user_db ⟨[⟨1, "Ann", "a@x.com", 5⟩], 2⟩ 1).2 1 = none ∧
    delete_user_db ⟨[⟨1, "Ann", "a@x.com", 5⟩], 2⟩ 7 =
      (false, ⟨[⟨1, "Ann", "a@x.com", 5⟩], 2⟩) := by
  have h := (C7_delete ⟨[⟨1, "Ann", "a@x.com", 5⟩], 2⟩ 1 (by decide)).2
    ⟨1, "Ann", "a@x.com", 5⟩ (by simp) rfl
  have h0 := (C7_delete ⟨[⟨1, "Ann", "a@x.com", 5⟩], 2⟩ 7 (by decide)).1 (by decide)
  exact ⟨by simpa using h.1, h.2.1, h0⟩

/-- C8: the update operation never touches `id` or `created_at`: when it
succeeds, the returned record keeps the id and creation timestamp of the
stored target row and takes only `name` and `email` from the body, the
auto-increment counter is unchanged, and every row whose id differs from the
target survives unchanged; moreover create leaves all pre-existing rows in
place, and delete only ever removes rows, never altering a surviving one. -/
theorem C8_id_created_at_immutable (s : Store) (uid : Nat) (d : UserCreate) (now : Nat) :
    (∀ u' s2, update_user_db s uid d = (some u', s2) →
      ∃ u, u ∈ s.rows ∧ u.id = uid ∧ u'.id = u.id ∧ u'.created_at = u.created_at ∧
        u'.name = d.name ∧ u'.email = d.email ∧
        s2.nextId = s.nextId ∧
        s2.rows = s.rows.map (fun v => if v.id == uid then u' else v) ∧
        (∀ v ∈ s.rows, v.id ≠ uid → v ∈ s2.rows)) ∧
    (∀ v ∈ s.rows, v ∈ (create_user_db s d now).2.rows) ∧
    (∀ v ∈ (delete_user_db s uid).2.rows, v ∈ s.rows) := by
  refine ⟨?_, ?_, ?_⟩
  · intro u' s2 h
    cases hg : get_user_db s uid with
    | none =>
      rw [update_user_db, hg] at h
      simp at h
    | some u =>
      rw [update_user_db, hg] at h
      simp only [Prod.mk.injEq, Option.some.injEq] at h
      obtain ⟨hu', hs2⟩ := h
      subst hu' hs2
      refine ⟨u, List.mem_of_find?_eq_some hg, ?_, rfl, rfl, rfl, rfl, rfl, rfl, ?_⟩
      · have := List.find?_some hg
        simpa using this
      · intro v hv hvid
        exact List.mem_map.2 ⟨v, hv, by simp [hvid]⟩
  · intro v hv
    simp [create_user_db]
    exact Or.inl hv
  · intro v hv
    cases hg : get_user_db s uid with
    | none =>
      rw [delete_user_db, hg] at hv
      exact hv
    | some u =>
      rw [delete_user_db, hg] at hv
      exact (List.mem_filter.1 hv).1

/-- Witness for C8 at a concrete successful update: updating id 1 of the
one-row store keeps id 1 and the original creation time 5 while taking the
new name and email from the body. -/
theorem C8_id_created_at_immutable_witness :
    ∃ u, u ∈ (⟨[⟨1, "Ann", "a@x.com", 5⟩], 2⟩ : Store).rows ∧ u.id = 1 ∧
      (⟨1, "Bea", "b@x.com", 5⟩ : UserRecord).id = u.id ∧
      (⟨1, "Bea", "b@x.com", 5⟩ : UserRecord).created_at = u.created_at := by
  have h := (C8_id_created_at_immutable ⟨[⟨1, "Ann", "a@x.com", 5⟩], 2⟩ 1
      ⟨"Bea", "b@x.com"⟩ 9).1
    ⟨1, "Bea", "b@x.com", 5⟩ ⟨[⟨1, "Bea", "b@x.com", 5⟩], 2⟩ (by decide)
  obtain ⟨u, h1, h2, h3, h4, -⟩ := h
  exact ⟨u, h1, h2, h3, h4⟩

/-- C9: the database configuration takes engine, name, user, password, host
and port from the corresponding DB_ environment variables, and when DB_ENGINE
or DB_NAME is unset it falls back to the SQLite backend with the db.sqlite3
file under the project root. -/
theorem C9_db_config (env : Env) (baseDir : String) :
    DATABASES_default env baseDir =
      { engine := (env "DB_ENGINE").getD "django.db.backends.sqlite3"
        name := (env "DB_NAME").getD (defaultDbName baseDir)
        user := env "DB_USER"
        password := env "DB_PASSWORD"
        host := env "DB_HOST"
        port := env "DB_PORT" } ∧
    (env "DB_ENGINE" = none →
      (DATABASES_default env baseDir).engine = "django.db.backends.sqlite3") ∧
    (env "DB_NAME" = none →
      (DATABASES_default env baseDir).name = baseDir ++ "/db.sqlite3") := by
  refine ⟨rfl, ?_, ?_⟩
  · intro h
    simp [DATABASES_default, getenvD, h]
  · intro h
    simp [DATABASES_default, getenvD, h, defaultDbName]

/-- Witness for C9: with every variable unset the configuration is the SQLite
engine with the db.sqlite3 file under the project root. -/
theorem C9_db_config_witness :
    (DATABASES_default (fun _ => none) "/proj").engine = "django.db.backends.sqlite3" ∧
    (DATABASES_default (fun _ => none) "/proj").name = "/proj/db.sqlite3" :=
  ⟨(C9_db_config (fun _ => none) "/proj").2.1 rfl,
   (C9_db_config (fun _ => none) "/proj").2.2 rfl⟩

/-- C10: the create endpoint reads only `name` and `email` from the request
body — two bodies agreeing on those fields produce identical responses and
stores whatever extra id or created_at fields they carry — and on success the
stored record takes its id from the auto-increment counter and its
created_at from the insertion time, never from the body. -/
theorem C10_extra_fields_ignored (s : Store) (b1 b2 : RawBody) (now : Nat)
    (hn : b1.name = b2.name) (he : b1.email = b2.email) :
    create_user s b1 now = create_user s b2 now ∧
    (∀ d, validateBody b1 = some d →
      (create_user s b1 now).2.rows = s.rows ++ [⟨s.nextId, d.name, d.email, now⟩] ∧
      (create_user s b1 now).1 = ⟨201, .user ⟨s.nextId, d.name, d.email, now⟩⟩) := by
  have hv : validateBody b1 = validateBody b2 := by
    unfold validateBody
    rw [hn, he]
  refine ⟨?_, ?_⟩
  · unfold create_user
    rw [hv]
  · intro d hd
    simp [create_user, hd, create_user_db]

/-- Witness for C10: a body smuggling id 99 and created_at 77 creates exactly
the same record as the clean body with the same name and email; the stored id
is 1 (from the counter) and created_at is 5 (the insertion time). -/
theorem C10_extra_fields_ignored_witness :
    create_user Store.empty ⟨some "Ann", some "a@x.com", some 99, some 77⟩ 5 =
      create_user Store.empty ⟨some "Ann", some "a@x.com", none, none⟩ 5 ∧
    (create_user Store.empty ⟨some "Ann", some "a@x.com", some 99, some 77⟩ 5).2.rows =
      [⟨1, "Ann", "a@x.com", 5⟩] := by
  have h := C10_extra_fields_ignored Store.empty
    ⟨some "Ann", some "a@x.com", some 99, some 77⟩
    ⟨some "Ann", some "a@x.com", none, none⟩ 5 rfl rfl
  refine ⟨h.1, ?_⟩
  have h2 := (h.2 ⟨"Ann", "a@x.com"⟩ (by decide)).1
  simpa [Store.empty] using h2
